import Mathlib

/-!
Verification of the CSV ingestion and deduplication pipeline of the merchant
KPI dashboard.  The pipeline exists in two variants in the source:

* the server-side edge function (`supabase/functions/import-data`, deduplicating
  variant): BOM stripping, `;`-splitting, header-name row building, month token
  `mon-YY` normalization, composite-key deduplication, comma-stripping TPV
  coercion, purge-on-reload, batched inserts of size 500;
* the client-side library `src/lib/importCheckoutData.ts`: same row parsing but
  month token `mon_YY`, no deduplication, no comma stripping, single insert.

Strings are modelled as `List Char` (`Str`); JavaScript string primitives
(`trim`, `split`, `toLowerCase`, template interpolation of `undefined`,
`parseFloat`) are embedded below.  Numbers are modelled as `ℚ`; all numeric
values in the verified claims are small integers, exactly representable in
IEEE doubles, so `ℚ` is faithful there.  `parseFloat` is modelled for finite
decimal/exponent notation (the `Infinity` literal is not modelled; it cannot
occur in the numeric fields of the claims checked here).
-/

abbrev Str := List Char

/-- JavaScript whitespace characters recognised by `String.prototype.trim`. -/
def isJsWhitespace (c : Char) : Bool :=
  c == ' ' || c == '\t' || c == '\n' || c == '\r' || c == '\x0b' || c == '\x0c' ||
  c == ' ' || c == ' ' ||
  (decide (' ' ≤ c) && decide (c ≤ ' ')) ||
  c == ' ' || c == ' ' || c == ' ' || c == ' ' ||
  c == '　' || c == '﻿'

/-- JavaScript `String.prototype.trim`: drop whitespace from both ends. -/
def jsTrim (s : Str) : Str :=
  ((s.dropWhile isJsWhitespace).reverse.dropWhile isJsWhitespace).reverse

/-- JavaScript `str.split(sep)` for a single-character separator: the result is
always non-empty, and empty fragments between adjacent separators are kept. -/
def splitOnChar (sep : Char) : Str → List Str
  | [] => [[]]
  | c :: cs =>
    if c = sep then [] :: splitOnChar sep cs
    else
      match splitOnChar sep cs with
      | [] => [[c]]
      | f :: rest => (c :: f) :: rest

/-- The edge function's `csvContent.replace(/^﻿/, '')`: strip one leading
byte-order mark. -/
def stripBOM : Str → Str
  | '﻿' :: rest => rest
  | s => s

/-- JavaScript template interpolation of a possibly-undefined string value:
`undefined` renders as the text "undefined". -/
def jsTemplate : Option Str → Str
  | none => "undefined".toList
  | some s => s

/-- JavaScript truthiness of a possibly-undefined string: `undefined` and the
empty string are falsy. -/
def truthy : Option Str → Bool
  | none => false
  | some s => !s.isEmpty

/-- JavaScript `toLowerCase` restricted to ASCII letters (the month-table keys
are ASCII; no non-ASCII character lowercases to a letter of a month key). -/
def jsToLower (s : Str) : Str := s.map Char.toLower

/-- Numeric value of a string of decimal digits. -/
def digitsToNat (ds : Str) : Nat :=
  ds.foldl (fun n c => n * 10 + (c.toNat - '0'.toNat)) 0

/-- Parse an optional exponent suffix after `e`/`E`: optional sign, then
digits; absent digits leave the exponent at 0 (as `parseFloat("1e")` = 1). -/
def parseExponent (r : Str) : Int :=
  let signAndRest : Int × Str :=
    match r with
    | '-' :: t => (-1, t)
    | '+' :: t => (1, t)
    | t => (1, t)
  let ds := signAndRest.2.takeWhile Char.isDigit
  if ds.isEmpty then 0 else signAndRest.1 * digitsToNat ds

/-- Scale a rational by a power of ten (the exponent part of a float literal),
using `Nat` powers only. -/
def scalePow10 (q : ℚ) (e : Int) : ℚ :=
  if 0 ≤ e then q * ((10 ^ e.toNat : ℕ) : ℚ) else q / ((10 ^ (-e).toNat : ℕ) : ℚ)

/-- JavaScript `parseFloat`: skip leading whitespace, optional sign, integer
digits, optional fraction, optional exponent; trailing garbage is ignored.
Returns `none` for NaN (no digits found). The `Infinity` literal is not
modelled. -/
def jsParseFloat (s : Str) : Option ℚ :=
  let s1 := s.dropWhile isJsWhitespace
  let signAndRest : ℚ × Str :=
    match s1 with
    | '-' :: t => (-1, t)
    | '+' :: t => (1, t)
    | t => (1, t)
  let sign := signAndRest.1
  let s2 := signAndRest.2
  let intDigits := s2.takeWhile Char.isDigit
  let s3 := s2.dropWhile Char.isDigit
  let fracAndRest : Str × Str :=
    match s3 with
    | '.' :: t => (t.takeWhile Char.isDigit, t.dropWhile Char.isDigit)
    | t => ([], t)
  let fracDigits := fracAndRest.1
  let s4 := fracAndRest.2
  if intDigits.isEmpty && fracDigits.isEmpty then none
  else
    let mantissa : ℚ :=
      (digitsToNat intDigits : ℚ) + (digitsToNat fracDigits : ℚ) / ((10 ^ fracDigits.length : ℕ) : ℚ)
    let expo : Int :=
      match s4 with
      | 'e' :: t => parseExponent t
      | 'E' :: t => parseExponent t
      | _ => 0
    some (sign * scalePow10 mantissa expo)

/-- The `parseFloat(x) || 0` idiom: NaN (and `-0`/`0`, which are numerically 0)
collapse to `0`. -/
def coerceNum (s : Str) : ℚ :=
  match jsParseFloat s with
  | none => 0
  | some q => q

/-- The edge function's `row.tpv.replace(/,/g, '')`: remove every comma. -/
def stripCommas (s : Str) : Str := s.filter (fun c => !(c == ','))

/-- Server-side TPV coercion: strip commas, then `parseFloat || 0`. -/
def coerceTpv (s : Str) : ℚ := coerceNum (stripCommas s)

/-- TPT coercion `parseFloat(row.tpt) || 0`; an undefined field interpolates to
the string "undefined", which parses as NaN, hence 0. -/
def coerceTptOpt (o : Option Str) : ℚ := coerceNum (jsTemplate o)

/-- The fixed 12-entry month abbreviation table shared by both variants. -/
def monthMap (m : Str) : Option Str :=
  if m = "jan".toList then some "01".toList
  else if m = "feb".toList then some "02".toList
  else if m = "mar".toList then some "03".toList
  else if m = "apr".toList then some "04".toList
  else if m = "may".toList then some "05".toList
  else if m = "jun".toList then some "06".toList
  else if m = "jul".toList then some "07".toList
  else if m = "aug".toList then some "08".toList
  else if m = "sep".toList then some "09".toList
  else if m = "oct".toList then some "10".toList
  else if m = "nov".toList then some "11".toList
  else if m = "dec".toList then some "12".toList
  else none

/-- Runtime exceptions of the modelled pipeline: the `TypeError` thrown when a
property of `undefined` is accessed, and the store errors rethrown from the
purge and insert calls. -/
inductive JsError where
  | typeError
  | deleteFailed
  | insertFailed
deriving DecidableEq, Repr

/-- Server-side `parseMonthToDate` (edge function): split on '-', destructure
into month and year.  If the token has no '-', `year` is `undefined` and
`year.length` throws a TypeError.  A two-digit year is prefixed with "20"; an
unrecognized month abbreviation interpolates as "undefined". -/
def parseMonthToDate (monthStr : Str) : Except JsError Str :=
  let parts := splitOnChar '-' monthStr
  let month := parts.headD []
  match parts[1]? with
  | none => .error .typeError
  | some year =>
    let monthLower := jsToLower month
    let fullYear := if year.length = 2 then '2' :: '0' :: year else year
    .ok (fullYear ++ '-' :: jsTemplate (monthMap monthLower) ++ '-' :: '0' :: '1' :: [])

/-- Client-side `parseMonthToDate` (src/lib/importCheckoutData.ts): split on
'_', no lowercasing, no two-digit-year handling; an absent year or unknown
month interpolates as "undefined". -/
def clientParseMonthToDate (monthStr : Str) : Str :=
  let parts := splitOnChar '_' monthStr
  let month := parts.headD []
  jsTemplate parts[1]? ++ '-' :: jsTemplate (monthMap month) ++ '-' :: '0' :: '1' :: []

/-- The canonical parsed entity persisted by the pipeline.  `product_type` and
`merchant_name` are `Option Str` because the edge function copies possibly
undefined row properties verbatim into the record; `pillar` and `brand_id`
have passed the truthiness guard and are plain strings. -/
structure MerchantRecord where
  pillar : Str
  product_type : Option Str
  brand_id : Str
  merchant_name : Option Str
  tpt : ℚ
  tpv : ℚ
  date : Str
deriving DecidableEq, Repr

/-- The identity tuple of a record, in the spec's order
(pillar, brand_id, merchant_name, product_type, date). -/
def identityTuple (r : MerchantRecord) : Str × Str × Option Str × Option Str × Str :=
  (r.pillar, r.brand_id, r.merchant_name, r.product_type, r.date)

/-- The composite dedup key of the edge function, line 77:
`${pillar}-${brand_id}-${merchant_name}-${product_type}-${date}`. -/
def keyOfTuple : Str × Str × Option Str × Option Str × Str → Str
  | (p, b, m, pt, d) =>
    p ++ '-' :: b ++ '-' :: jsTemplate m ++ '-' :: jsTemplate pt ++ '-' :: d

/-- The dedup key as a function of an accepted record. -/
def keyOf (r : MerchantRecord) : Str := keyOfTuple (identityTuple r)

/-- Header field names used by the pipeline. -/
def pillarF : Str := "pillar".toList

def brandF : Str := "brand_id".toList

def merchantF : Str := "merchant_name".toList

def ptypeF : Str := "product_type".toList

def tptF : Str := "tpt".toList

def tpvF : Str := "tpv".toList

def monthF : Str := "month".toList

/-- The row object built by
`headers.forEach((header, index) => { row[header.trim()] = values[index]?.trim() || ''; })`:
a later assignment to the same property name overrides an earlier one, a
missing value cell yields the empty string, and a property never assigned is
`undefined` (`none`). -/
def buildRow (headers values : List Str) (f : Str) : Option Str :=
  match headers with
  | [] => none
  | h :: hs =>
    match buildRow hs (values.drop 1) f with
    | some v => some v
    | none => if jsTrim h = f then some (jsTrim (values.headD [])) else none

/-- The row loop of the edge function's `importCheckoutData` (lines 59-97):
skip all-empty lines, skip lines with falsy `pillar` or `brand_id`, parse the
month token (which can throw), drop and count key duplicates, coerce `tpt` and
`tpv` (accessing an undefined `tpv` throws), and append the accepted record. -/
def processRows (headers : List Str) : List Str → List Str → List MerchantRecord → Nat →
    Except JsError (List MerchantRecord × Nat)
  | [], _seen, recs, dups => .ok (recs, dups)
  | line :: rest, seen, recs, dups =>
    let values := splitOnChar ';' line
    if values.all (fun v => (jsTrim v).isEmpty) then
      processRows headers rest seen recs dups
    else if !truthy (buildRow headers values pillarF) || !truthy (buildRow headers values brandF) then
      processRows headers rest seen recs dups
    else
      match buildRow headers values monthF with
      | none => .error .typeError
      | some mstr =>
        match parseMonthToDate mstr with
        | .error e => .error e
        | .ok date =>
          let pillar := (buildRow headers values pillarF).getD []
          let brand_id := (buildRow headers values brandF).getD []
          let merchant_name := buildRow headers values merchantF
          let product_type := buildRow headers values ptypeF
          let key := keyOfTuple (pillar, brand_id, merchant_name, product_type, date)
          if key ∈ seen then
            processRows headers rest seen recs (dups + 1)
          else
            match buildRow headers values tpvF with
            | none => .error .typeError
            | some tpvRaw =>
              let r : MerchantRecord :=
                { pillar, product_type, brand_id, merchant_name,
                  tpt := coerceTptOpt (buildRow headers values tptF),
                  tpv := coerceTpv tpvRaw, date }
              processRows headers rest (key :: seen) (recs ++ [r]) dups

/-- The parsing and transforming phase of the edge function: strip the BOM,
trim, split into lines, take the first line as the `;`-separated header row,
and run the row loop on the remaining lines.  Returns the accepted records and
the duplicates-skipped count, or the thrown error. -/
def parseRecords (csvContent : Str) : Except JsError (List MerchantRecord × Nat) :=
  let cleanContent := stripBOM csvContent
  let lines := splitOnChar '\n' (jsTrim cleanContent)
  let headers := (splitOnChar ';' (lines.headD [])).map jsTrim
  processRows headers (lines.drop 1) [] [] 0

/-- Whether a data line survives the two silent-skip guards: it is not
all-empty after field trimming, and its `pillar` and `brand_id` properties are
truthy. -/
def isValidLine (headers : List Str) (line : Str) : Bool :=
  let values := splitOnChar ';' line
  !(values.all fun v => (jsTrim v).isEmpty) &&
    truthy (buildRow headers values pillarF) && truthy (buildRow headers values brandF)

/-- Number of data lines of the input that pass the silent-skip guards; the
dedup-correctness claim equates `imported + duplicatesSkipped` with this. -/
def countValid (csvContent : Str) : Nat :=
  let cleanContent := stripBOM csvContent
  let lines := splitOnChar '\n' (jsTrim cleanContent)
  let headers := (splitOnChar ';' (lines.headD [])).map jsTrim
  ((lines.drop 1).filter (isValidLine headers)).length

/-- A row persisted in the `merchant_data` table: an `id` (uuid, assigned by
the store) and the record columns. -/
structure StoredRow where
  id : Str
  record : MerchantRecord
deriving DecidableEq, Repr

/-- Observable calls issued against the store: the delete-all purge and each
bulk insert with its batch size. -/
inductive DBEvent where
  | purge
  | insert (size : Nat)
deriving DecidableEq, Repr

/-- Environment resolving the outcome of each store call: whether the purge
call errors, whether the k-th insert call (0-based) errors, and the ids the
store assigns to newly inserted rows. -/
structure Env where
  purgeFails : Bool
  insertFails : Nat → Bool
  idGen : Nat → Str

/-- The nil uuid used by the purge filter:
`.delete().neq('id', '00000000-0000-0000-0000-000000000000')`. -/
def nilUUID : Str := "00000000-0000-0000-0000-000000000000".toList

/-- Effect of `.delete().neq('id', v)` on the store: rows whose id differs
from `v` are deleted, rows whose id equals `v` remain. -/
def deleteAllNeqId (store : List StoredRow) (v : Str) : List StoredRow :=
  store.filter (fun r => decide (r.id = v))

/-- The batch size of the loader (edge function line 102). -/
def batchSize : Nat := 500

/-- The batch insert loop (edge function lines 105-121): slice off up to
`batchSize` records, issue one insert call, abort with the store error on the
first failing call (no later chunk is attempted), otherwise append the rows to
the store and accumulate `totalInserted`.  Returns the final `totalInserted`
on success, together with the store contents and the trace of insert calls. -/
def insertBatchesGo (env : Env) :
    Nat → Nat → Nat → List StoredRow → List MerchantRecord →
    Except JsError Nat × List StoredRow × List DBEvent
  | _, _, acc, store, [] => (.ok acc, store, [])
  | 0, _, acc, store, _ :: _ => (.ok acc, store, [])
  | fuel + 1, callIdx, acc, store, r :: rs =>
    let pending := r :: rs
    let batch := pending.take batchSize
    let rest := pending.drop batchSize
    if env.insertFails callIdx then
      (.error .insertFailed, store, [.insert batch.length])
    else
      let newRows := batch.enum.map (fun p => StoredRow.mk (env.idGen (acc + p.1)) p.2)
      let out := insertBatchesGo env fuel (callIdx + 1) (acc + batch.length) (store ++ newRows) rest
      (out.1, out.2.1, .insert batch.length :: out.2.2)

/-- The batch insert loop, entered with fuel equal to the number of pending
records; since every step consumes at least one record, the fuel-exhausted
branch of `insertBatchesGo` is never reached (`insertBatchesGo_fuel_irrel`
and `insertBatches_cons` below make this precise). -/
def insertBatches (env : Env) (callIdx : Nat) (acc : Nat) (store : List StoredRow)
    (pending : List MerchantRecord) :
    Except JsError Nat × List StoredRow × List DBEvent :=
  insertBatchesGo env pending.length callIdx acc store pending

/-- The import result object of the edge function (lines 123-129). -/
structure ImportResult where
  imported : Nat
  duplicatesSkipped : Nat
  cleared : Bool
  errors : Nat
  message : Str
deriving DecidableEq, Repr

/-- The deduplicating server-side `importCheckoutData` (edge function lines
29-134): optional purge (a purge error aborts before any parsing), then the
parse/transform/dedup phase, then the batch loader; on success the result
reports `imported = records.length` and the duplicates-skipped count.  Thrown
errors propagate to the caller (the code's catch block rethrows).  The store
contents and the trace of store calls are returned alongside. -/
def importCheckoutData (csvContent : Str) (env : Env) (store : List StoredRow)
    (clearExisting : Bool) : Except JsError ImportResult × List StoredRow × List DBEvent :=
  if clearExisting && env.purgeFails then
    (.error .deleteFailed, store, [.purge])
  else
    let store1 := if clearExisting then deleteAllNeqId store nilUUID else store
    let evs1 : List DBEvent := if clearExisting then [.purge] else []
    match parseRecords csvContent with
    | .error e => (.error e, store1, evs1)
    | .ok (records, duplicatesSkipped) =>
      match insertBatches env 0 0 store1 records with
      | (.error e, s, evs) => (.error e, s, evs1 ++ evs)
      | (.ok _, s, evs) =>
        (.ok { imported := records.length, duplicatesSkipped,
               cleared := clearExisting, errors := 0,
               message := "Data imported successfully".toList },
         s, evs1 ++ evs)

/-- The JSON body and status the `Deno.serve` handler responds with: on
success, status 200 with the result's counts; on any thrown error, status 500
with `imported: 0, skipped: 0, errors: 1`. -/
structure HttpResponse where
  status : Nat
  imported : Nat
  skipped : Nat
  errors : Nat
deriving DecidableEq, Repr

/-- The handler's mapping from the import outcome to the HTTP response
(edge function lines 162-183). -/
def respond : Except JsError ImportResult → HttpResponse
  | .ok r => { status := 200, imported := r.imported, skipped := r.duplicatesSkipped, errors := 0 }
  | .error _ => { status := 500, imported := 0, skipped := 0, errors := 1 }

/-- Decidable equality for `Except` outcomes, used to state concrete runs of
the pipeline. -/
instance exceptDecEq {ε α : Type} [DecidableEq ε] [DecidableEq α] :
    DecidableEq (Except ε α) := fun a b =>
  match a, b with
  | .ok x, .ok y =>
    if h : x = y then .isTrue (by rw [h]) else .isFalse (fun hh => by cases hh; exact h rfl)
  | .error x, .error y =>
    if h : x = y then .isTrue (by rw [h]) else .isFalse (fun hh => by cases hh; exact h rfl)
  | .ok _, .error _ => .isFalse (fun hh => by cases hh)
  | .error _, .ok _ => .isFalse (fun hh => by cases hh)

/-- Environment in which every store call succeeds (ids are immaterial for the
claims and are generated as empty strings). -/
def envOK : Env := { purgeFails := false, insertFails := fun _ => false, idGen := fun _ => [] }

/-- Environment in which the purge call fails. -/
def envPurgeFail : Env := { purgeFails := true, insertFails := fun _ => false, idGen := fun _ => [] }

/-- Environment in which the second insert call (0-based index 1) fails and
every other call succeeds. -/
def envFailSecond : Env := { purgeFails := false, insertFails := fun k => k == 1, idGen := fun _ => [] }

/-- The exact two-data-row input of the dedup scenario claim, with the month
token `jan_25` as written there. -/
def csvScenario : Str :=
  "pillar;product_type;brand_id;merchant_name;tpt;tpv;month\nWallets_Billing;PayChat;B1;Acme;10;1,000;jan_25\nWallets_Billing;PayChat;B1;Acme;10;1,000;jan_25".toList

/-- The dedup scenario input with the month token in the edge function's
`mon-YY` convention (`jan-25`). -/
def csvScenarioDashed : Str :=
  "pillar;product_type;brand_id;merchant_name;tpt;tpv;month\nWallets_Billing;PayChat;B1;Acme;10;1,000;jan-25\nWallets_Billing;PayChat;B1;Acme;10;1,000;jan-25".toList

/-- The result object the dedup scenario claims. -/
def resScenario : ImportResult :=
  { imported := 1, duplicatesSkipped := 1, cleared := false, errors := 0,
    message := "Data imported successfully".toList }

/-- A sample record used to build the 1200-record loader input. -/
def sampleRec : MerchantRecord :=
  { pillar := "P".toList, product_type := some "T".toList, brand_id := "B".toList,
    merchant_name := some "M".toList, tpt := 1, tpv := 2, date := "2025-01-01".toList }

/-- 1200 deduplicated records handed to the batch loader. -/
def recs1200 : List MerchantRecord := List.replicate 1200 sampleRec

/-- Input whose two data rows have distinct identity tuples (`a-b`/`c` versus
`a`/`b-c`) but the same '-'-joined dedup key. -/
def csvCollide : Str :=
  "pillar;product_type;brand_id;merchant_name;tpt;tpv;month\na-b;P;c;M;1;2;jan-25\na;P;b-c;M;1;2;jan-25".toList

/-- The identity tuple of the first collision row. -/
def tupleCollideA : Str × Str × Option Str × Option Str × Str :=
  ("a-b".toList, "c".toList, some "M".toList, some "P".toList, "2025-01-01".toList)

/-- The identity tuple of the second collision row. -/
def tupleCollideB : Str × Str × Option Str × Option Str × Str :=
  ("a".toList, "b-c".toList, some "M".toList, some "P".toList, "2025-01-01".toList)

/-- The single record accepted from `csvCollide`. -/
def recCollide : MerchantRecord :=
  { pillar := "a-b".toList, product_type := some "P".toList, brand_id := "c".toList,
    merchant_name := some "M".toList, tpt := 1, tpv := 2, date := "2025-01-01".toList }

/-- Input whose single data row carries the negative transaction count "-5". -/
def csvNegTpt : Str :=
  "pillar;product_type;brand_id;merchant_name;tpt;tpv;month\nP;T;B;M;-5;3;jan-25".toList

/-- The record parsed from `csvNegTpt`: its `tpt` is the negative number -5. -/
def recNegTpt : MerchantRecord :=
  { pillar := "P".toList, product_type := some "T".toList, brand_id := "B".toList,
    merchant_name := some "M".toList, tpt := -5, tpv := 3, date := "2025-01-01".toList }

/-- A two-row store, one row with the nil uuid id, one with another id. -/
def storeWithNil : List StoredRow := [⟨nilUUID, sampleRec⟩, ⟨"1f".toList, sampleRec⟩]

set_option maxRecDepth 40000

/-- Input with malformed numeric fields (empty `tpt`, alphabetic `tpv`):
the import still succeeds, the fields are zeroed. -/
def csvBadNum : Str :=
  "pillar;product_type;brand_id;merchant_name;tpt;tpv;month\nP;T;B;M;;abc;jan-25".toList

/-- Result of importing `csvBadNum`. -/
def resBadNum : ImportResult :=
  { imported := 1, duplicatesSkipped := 0, cleared := false, errors := 0,
    message := "Data imported successfully".toList }

/-- Input for exercising the dedup count: three valid data lines (one of them
a duplicate) and one all-empty line. -/
def csvMixed : Str :=
  "pillar;product_type;brand_id;merchant_name;tpt;tpv;month\nA;P;B;M;1;2;jan-25\nA;P;B2;M;1;2;jan-25\n;;;;;;\nA;P;B;M;1;2;jan-25".toList

/-- Result of importing `csvMixed`. -/
def resMixed : ImportResult :=
  { imported := 2, duplicatesSkipped := 1, cleared := false, errors := 0,
    message := "Data imported successfully".toList }

/-- First record accepted from `csvMixed`. -/
def recMixedA : MerchantRecord :=
  { pillar := "A".toList, product_type := some "P".toList, brand_id := "B".toList,
    merchant_name := some "M".toList, tpt := 1, tpv := 2, date := "2025-01-01".toList }

/-- Second record accepted from `csvMixed`. -/
def recMixedB : MerchantRecord :=
  { pillar := "A".toList, product_type := some "P".toList, brand_id := "B2".toList,
    merchant_name := some "M".toList, tpt := 1, tpv := 2, date := "2025-01-01".toList }

theorem splitOnChar_of_not_mem (sep : Char) (s : Str) (h : sep ∉ s) :
    splitOnChar sep s = [s] := by
  induction s with
  | nil => rfl
  | cons c cs ih =>
    have hc : ¬ c = sep := fun hcs => h (hcs ▸ List.mem_cons_self c cs)
    have hcs : sep ∉ cs := fun hm => h (List.mem_cons_of_mem c hm)
    simp only [splitOnChar, if_neg hc, ih hcs]

theorem splitOnChar_append_sep (sep : Char) (a b : Str) (h : sep ∉ a) :
    splitOnChar sep (a ++ sep :: b) = a :: splitOnChar sep b := by
  induction a with
  | nil => simp [splitOnChar]
  | cons c cs ih =>
    have hc : ¬ c = sep := fun hcs => h (hcs ▸ List.mem_cons_self c cs)
    have hcs : sep ∉ cs := fun hm => h (List.mem_cons_of_mem c hm)
    simp only [List.cons_append, splitOnChar, if_neg hc, List.append_eq, ih hcs]

theorem splitOnChar_ne_nil (sep : Char) (s : Str) : splitOnChar sep s ≠ [] := by
  cases s with
  | nil => simp [splitOnChar]
  | cons c cs =>
    simp only [splitOnChar]
    split
    · simp
    · split <;> simp

/-- C6: when the reload flag is set and the purge call against the store
fails, the import fails immediately with the purge error: the returned store
equals the prior store unchanged (nothing was purged), the only store call is
the purge (no insert is issued), and no parsing output is produced — the
outcome is independent of the CSV content. -/
theorem reload_purge_failure_aborts_all (csv : Str) (env : Env) (store : List StoredRow)
    (hp : env.purgeFails = true) :
    importCheckoutData csv env store true = (.error .deleteFailed, store, [.purge]) := by
  simp [importCheckoutData, hp]

theorem reload_purge_failure_aborts_all_witness :
    importCheckoutData csvScenario envPurgeFail storeWithNil true =
      (.error .deleteFailed, storeWithNil, [.purge]) :=
  reload_purge_failure_aborts_all csvScenario envPurgeFail storeWithNil rfl

/-- C10: the purge issued for `clearExisting` is `.delete().neq('id', nil)`,
so it deletes exactly the rows whose id differs from the nil uuid
`00000000-0000-0000-0000-000000000000`: after a successful purge (shown on an
empty CSV so that no insert follows) the store consists of exactly its rows
whose id equals the nil uuid — a stored row with the nil uuid id survives, so
the purge is not unconditional over all rows. -/
theorem purge_keeps_nil_uuid_rows (store : List StoredRow) (env : Env) (row : StoredRow)
    (hp : env.purgeFails = false) :
    (importCheckoutData [] env store true).2.1 = deleteAllNeqId store nilUUID ∧
    (row ∈ deleteAllNeqId store nilUUID ↔ row ∈ store ∧ row.id = nilUUID) := by
  constructor
  · have hpr : parseRecords ([] : Str) = .ok ([], 0) := rfl
    simp [importCheckoutData, hp, hpr, insertBatches, insertBatchesGo]
  · simp [deleteAllNeqId, List.mem_filter]

theorem purge_keeps_nil_uuid_rows_witness :
    (importCheckoutData [] envOK storeWithNil true).2.1 = deleteAllNeqId storeWithNil nilUUID ∧
    (StoredRow.mk nilUUID sampleRec ∈ deleteAllNeqId storeWithNil nilUUID ↔
      StoredRow.mk nilUUID sampleRec ∈ storeWithNil ∧ (StoredRow.mk nilUUID sampleRec).id = nilUUID) :=
  purge_keeps_nil_uuid_rows storeWithNil envOK (StoredRow.mk nilUUID sampleRec) rfl

/-- C2 (counterexample): the month token `jan_25` does not map to `2025-01-01`
on both paths: the client-side normalizer returns `25-01-01` (it never
prefixes the year with "20"), and the server-side normalizer (which splits on
'-') throws a TypeError on `jan_25`. -/
theorem month_token_c2_counterexample :
    clientParseMonthToDate "jan_25".toList = "25-01-01".toList ∧
    "25-01-01".toList ≠ "2025-01-01".toList ∧
    parseMonthToDate "jan_25".toList = .error .typeError := by decide

/-- C2 (amended): only the server-side path prefixes a 2-digit year with "20"
and emits the first day of the month: for every token `m-y` (no '-' inside
the parts) with a 2-digit year, the output is `20y-<month code>-01`; in
particular `jan-25` maps to `2025-01-01`.  The client-side path does not
prefix the year: `jan_25` maps to `25-01-01`. -/
theorem month_token_two_digit_year (m y : Str) (hm : '-' ∉ m) (hy : '-' ∉ y)
    (hlen : y.length = 2) :
    parseMonthToDate (m ++ '-' :: y) =
      .ok ('2' :: '0' :: y ++ '-' :: jsTemplate (monthMap (jsToLower m)) ++ '-' :: '0' :: '1' :: []) ∧
    parseMonthToDate "jan-25".toList = .ok "2025-01-01".toList ∧
    clientParseMonthToDate "jan_25".toList = "25-01-01".toList := by
  refine ⟨?_, by decide, by decide⟩
  simp only [parseMonthToDate, splitOnChar_append_sep '-' m y hm, splitOnChar_of_not_mem '-' y hy]
  simp [hlen]

theorem month_token_two_digit_year_witness :
    parseMonthToDate ("jan".toList ++ '-' :: "25".toList) =
      .ok ('2' :: '0' :: "25".toList ++ '-' ::
        jsTemplate (monthMap (jsToLower "jan".toList)) ++ '-' :: '0' :: '1' :: []) ∧
    parseMonthToDate "jan-25".toList = .ok "2025-01-01".toList ∧
    clientParseMonthToDate "jan_25".toList = "25-01-01".toList :=
  month_token_two_digit_year "jan".toList "25".toList (by decide) (by decide) (by decide)

/-- C3 (counterexample): on the client-side path the `tpv` field
`"1,234,567"` coerces to 1 (no comma stripping before `parseFloat`), not to
1234567, so the claimed behavior does not hold on both ingestion paths. -/
theorem tpv_comma_c3_counterexample :
    coerceNum "1,234,567".toList = 1 ∧ (1 : ℚ) ≠ 1234567 :=
  ⟨by with_unfolding_all rfl, by decide⟩

/-- C3 (amended): the server-side coercion strips commas before parsing, so
`tpv = "1,234,567"` coerces to 1234567 there, while the client-side coercion
(plain `parseFloat(...) || 0`) yields 1 on the same field; `"abc"` coerces to
0 and an empty `tpt` coerces to 0 on both paths; and malformed numeric fields
never fail the import — they are zeroed (shown by a full run on a row with
empty `tpt` and `tpv = "abc"`). -/
theorem numeric_coercion_per_path :
    coerceTpv "1,234,567".toList = 1234567 ∧
    coerceNum "1,234,567".toList = 1 ∧
    coerceTpv "abc".toList = 0 ∧ coerceNum "abc".toList = 0 ∧
    coerceTptOpt (some []) = 0 ∧ coerceNum [] = 0 ∧
    (importCheckoutData csvBadNum envOK [] false).1 = .ok resBadNum :=
  ⟨by with_unfolding_all rfl, by with_unfolding_all rfl, by with_unfolding_all rfl,
   by with_unfolding_all rfl, by with_unfolding_all rfl, by with_unfolding_all rfl,
   by with_unfolding_all decide⟩

/-- C4 (counterexample): on the exact scenario input (month token `jan_25`),
the deduplicating server-side import does not return
`{imported: 1, duplicatesSkipped: 1}`: it throws a TypeError, because
`parseMonthToDate` splits on '-' and `jan_25` leaves the year undefined. -/
theorem scenario_c4_counterexample :
    (importCheckoutData csvScenario envOK [] false).1 = .error .typeError ∧
    (Except.error JsError.typeError : Except JsError ImportResult) ≠ .ok resScenario := by
  with_unfolding_all decide

/-- C4 (amended): with the month token written in the server path's `mon-YY`
convention (`jan-25`), the duplicated scenario row yields
`{imported: 1, duplicatesSkipped: 1}` and a single insert call of size 1. -/
theorem scenario_dashed_import :
    (importCheckoutData csvScenarioDashed envOK [] false).1 = .ok resScenario ∧
    (importCheckoutData csvScenarioDashed envOK [] false).2.2 = [.insert 1] := by
  with_unfolding_all decide

/-- C9: the dedup key is the '-'-joined string of pillar, brand_id,
merchant_name, product_type and date, and this mapping is not injective: the
two rows of `csvCollide` have distinct identity tuples but equal keys, so the
second row is dropped and counted in duplicatesSkipped even though it is not
a duplicate. -/
theorem dedup_key_not_injective :
    keyOfTuple tupleCollideA = keyOfTuple tupleCollideB ∧
    tupleCollideA ≠ tupleCollideB ∧
    parseRecords csvCollide = .ok ([recCollide], 1) ∧
    identityTuple recCollide = tupleCollideA := by
  with_unfolding_all decide

theorem processRows_count (headers : List Str) :
    ∀ (lines seen : List Str) (recs : List MerchantRecord) (dups : Nat)
      (recs' : List MerchantRecord) (dups' : Nat),
      processRows headers lines seen recs dups = .ok (recs', dups') →
      recs'.length + dups' = recs.length + dups + (lines.filter (isValidLine headers)).length := by
  intro lines
  induction lines with
  | nil =>
    intro seen recs dups recs' dups' h
    simp only [processRows, Except.ok.injEq, Prod.mk.injEq] at h
    obtain ⟨h1, h2⟩ := h
    subst h1; subst h2
    simp
  | cons line rest ih =>
    intro seen recs dups recs' dups' h
    simp only [processRows] at h
    rw [List.filter_cons]
    by_cases h1 : ((splitOnChar ';' line).all fun v => (jsTrim v).isEmpty) = true
    · rw [if_pos h1] at h
      have hv : isValidLine headers line = false := by simp [isValidLine, h1]
      rw [hv]
      simp only [Bool.false_eq_true, if_false]
      exact ih seen recs dups recs' dups' h
    · rw [if_neg h1] at h
      by_cases h2 : (!truthy (buildRow headers (splitOnChar ';' line) pillarF) ||
          !truthy (buildRow headers (splitOnChar ';' line) brandF)) = true
      · rw [if_pos h2] at h
        have hv : isValidLine headers line = false := by
          simp only [Bool.or_eq_true, Bool.not_eq_eq_eq_not, Bool.not_true] at h2
          rcases h2 with h2 | h2 <;> simp [isValidLine, h2]
        rw [hv]
        simp only [Bool.false_eq_true, if_false]
        exact ih seen recs dups recs' dups' h
      · rw [if_neg h2] at h
        have hv : isValidLine headers line = true := by
          simp only [Bool.not_eq_true] at h1
          simp only [Bool.not_eq_true, Bool.or_eq_false_iff, Bool.not_eq_false'] at h2
          simp [isValidLine, h1, h2.1, h2.2]
        rw [hv]
        simp only [if_true]
        split at h
        · exact absurd h (by simp)
        · split at h
          · exact absurd h (by simp)
          · split at h
            · have := ih _ _ _ _ _ h
              simp only [List.length_cons] at this ⊢
              omega
            · split at h
              · exact absurd h (by simp)
              · have := ih _ _ _ _ _ h
                simp only [List.length_append, List.length_cons, List.length_nil] at this ⊢
                omega

/-- C1: whenever the deduplicating server-side import returns a result (all
insert calls succeeding), `imported + duplicatesSkipped` equals the number of
data lines that are not all-empty and have truthy (non-empty after trimming)
`pillar` and `brand_id`. -/
theorem imported_plus_duplicates_counts_valid_rows (csv : Str) (env : Env)
    (store : List StoredRow) (hins : ∀ k, env.insertFails k = false) (r : ImportResult)
    (h : (importCheckoutData csv env store false).1 = .ok r) :
    r.imported + r.duplicatesSkipped = countValid csv := by
  simp only [importCheckoutData, Bool.false_and, Bool.false_eq_true, if_false] at h
  cases hp : parseRecords csv with
  | error e => rw [hp] at h; simp at h
  | ok pr =>
    obtain ⟨recs, d⟩ := pr
    rw [hp] at h
    dsimp only at h
    rcases hb : insertBatches env 0 0 store recs with ⟨res, s, evs⟩
    cases res with
    | error e => rw [hb] at h; simp at h
    | ok n =>
      rw [hb] at h
      simp only [Except.ok.injEq] at h
      subst h
      unfold parseRecords at hp
      have := processRows_count _ _ _ _ _ _ _ hp
      simpa [countValid] using this

theorem imported_plus_duplicates_counts_valid_rows_witness :
    resMixed.imported + resMixed.duplicatesSkipped = countValid csvMixed :=
  imported_plus_duplicates_counts_valid_rows csvMixed envOK [] (fun _ => rfl) resMixed
    (by with_unfolding_all decide)

theorem processRows_nodup (headers : List Str) :
    ∀ (lines seen : List Str) (recs : List MerchantRecord) (dups : Nat)
      (recs' : List MerchantRecord) (dups' : Nat),
      processRows headers lines seen recs dups = .ok (recs', dups') →
      (∀ r ∈ recs, keyOf r ∈ seen) →
      (recs.map keyOf).Nodup →
      (recs'.map keyOf).Nodup := by
  intro lines
  induction lines with
  | nil =>
    intro seen recs dups recs' dups' h hseen hnd
    simp only [processRows, Except.ok.injEq, Prod.mk.injEq] at h
    obtain ⟨h1, h2⟩ := h
    subst h1
    exact hnd
  | cons line rest ih =>
    intro seen recs dups recs' dups' h hseen hnd
    simp only [processRows] at h
    by_cases h1 : ((splitOnChar ';' line).all fun v => (jsTrim v).isEmpty) = true
    · rw [if_pos h1] at h
      exact ih _ _ _ _ _ h hseen hnd
    · rw [if_neg h1] at h
      by_cases h2 : (!truthy (buildRow headers (splitOnChar ';' line) pillarF) ||
          !truthy (buildRow headers (splitOnChar ';' line) brandF)) = true
      · rw [if_pos h2] at h
        exact ih _ _ _ _ _ h hseen hnd
      · rw [if_neg h2] at h
        split at h
        · exact absurd h (by simp)
        · split at h
          · exact absurd h (by simp)
          · split at h
            · exact ih _ _ _ _ _ h hseen hnd
            · next date hdate hk =>
              split at h
              · exact absurd h (by simp)
              · next tpvRaw htpv =>
                refine ih _ _ _ _ _ h ?_ ?_
                · intro x hx
                  rcases List.mem_append.mp hx with hx | hx
                  · exact List.mem_cons_of_mem _ (hseen x hx)
                  · rcases List.mem_singleton.mp hx with rfl
                    exact List.mem_cons_self _ _
                · rw [List.map_append, List.nodup_append]
                  refine ⟨hnd, List.nodup_singleton _, ?_⟩
                  intro a ha hb
                  simp only [List.map_cons, List.map_nil, List.mem_singleton] at hb
                  subst hb
                  simp only [List.mem_map] at ha
                  obtain ⟨x, hx, hkx⟩ := ha
                  refine hk ?_
                  have h3 := hseen x hx
                  rw [hkx] at h3
                  exact h3

/-- C8: any two distinct records accepted by the deduplicator within a single
run have pairwise distinct identity tuples
(pillar, brand_id, merchant_name, product_type, date): the dedup set makes
the accepted '-'-joined keys pairwise distinct, and the key is a function of
the identity tuple. -/
theorem accepted_identity_tuples_distinct (csv : Str) (recs : List MerchantRecord) (d : Nat)
    (h : parseRecords csv = .ok (recs, d)) :
    recs.Pairwise (fun a b => identityTuple a ≠ identityTuple b) := by
  unfold parseRecords at h
  have hnd := processRows_nodup _ _ _ _ _ _ _ h (by simp) (by simp)
  simp only [List.Nodup, List.pairwise_map] at hnd
  refine hnd.imp ?_
  intro a b hne heq
  exact hne (congrArg keyOfTuple heq)

theorem accepted_identity_tuples_distinct_witness :
    List.Pairwise (fun a b => identityTuple a ≠ identityTuple b) [recMixedA, recMixedB] :=
  accepted_identity_tuples_distinct csvMixed [recMixedA, recMixedB] 1
    (by with_unfolding_all decide)

theorem scalePow10_nonneg (q : ℚ) (e : Int) (hq : 0 ≤ q) : 0 ≤ scalePow10 q e := by
  unfold scalePow10
  split
  · positivity
  · positivity

theorem jsParseFloat_nonneg (s : Str)
    (h : (s.dropWhile isJsWhitespace).head? ≠ some '-') :
    ∀ q, jsParseFloat s = some q → 0 ≤ q := by
  intro q hq
  simp only [jsParseFloat] at hq
  split at hq
  · exact absurd hq (by simp)
  · rename_i hne
    split at hq
    · rename_i t heq
      exact absurd (by rw [heq]; rfl) h
    · rename_i t heq
      simp only [Option.some.injEq] at hq
      subst hq
      rw [one_mul]
      apply scalePow10_nonneg
      positivity
    · rename_i heq
      simp only [Option.some.injEq] at hq
      subst hq
      rw [one_mul]
      apply scalePow10_nonneg
      positivity

theorem coerceNum_nonneg (s : Str)
    (h : (s.dropWhile isJsWhitespace).head? ≠ some '-') : 0 ≤ coerceNum s := by
  rcases hq : jsParseFloat s with _ | q
  · simp [coerceNum, hq]
  · have := jsParseFloat_nonneg s h q hq
    simpa [coerceNum, hq]

theorem processRows_fields (headers : List Str) :
    ∀ (lines seen : List Str) (recs : List MerchantRecord) (dups : Nat)
      (recs' : List MerchantRecord) (dups' : Nat),
      processRows headers lines seen recs dups = .ok (recs', dups') →
      (∀ r ∈ recs, (∃ o, r.tpt = coerceTptOpt o) ∧ (∃ v, r.tpv = coerceTpv v)) →
      ∀ r ∈ recs', (∃ o, r.tpt = coerceTptOpt o) ∧ (∃ v, r.tpv = coerceTpv v) := by
  intro lines
  induction lines with
  | nil =>
    intro seen recs dups recs' dups' h hrecs
    simp only [processRows, Except.ok.injEq, Prod.mk.injEq] at h
    obtain ⟨h1, h2⟩ := h
    subst h1
    exact hrecs
  | cons line rest ih =>
    intro seen recs dups recs' dups' h hrecs
    simp only [processRows] at h
    by_cases h1 : ((splitOnChar ';' line).all fun v => (jsTrim v).isEmpty) = true
    · rw [if_pos h1] at h
      exact ih _ _ _ _ _ h hrecs
    · rw [if_neg h1] at h
      by_cases h2 : (!truthy (buildRow headers (splitOnChar ';' line) pillarF) ||
          !truthy (buildRow headers (splitOnChar ';' line) brandF)) = true
      · rw [if_pos h2] at h
        exact ih _ _ _ _ _ h hrecs
      · rw [if_neg h2] at h
        split at h
        · exact absurd h (by simp)
        · split at h
          · exact absurd h (by simp)
          · split at h
            · exact ih _ _ _ _ _ h hrecs
            · split at h
              · exact absurd h (by simp)
              · next tpvRaw htpv =>
                refine ih _ _ _ _ _ h ?_
                intro x hx
                rcases List.mem_append.mp hx with hx | hx
                · exact hrecs x hx
                · rcases List.mem_singleton.mp hx with rfl
                  exact ⟨⟨_, rfl⟩, ⟨tpvRaw, rfl⟩⟩

/-- C7 (counterexample): the pipeline does not guarantee `tpt ≥ 0`: the row
with raw `tpt = "-5"` is accepted and its record carries the negative value
-5 (the coercion has no lower clamp). -/
theorem tpt_nonneg_c7_counterexample :
    parseRecords csvNegTpt = .ok ([recNegTpt], 0) ∧ recNegTpt.tpt < 0 :=
  ⟨by with_unfolding_all decide, by with_unfolding_all decide⟩

/-- C7 (amended): every record emitted by the parse phase has `tpt` and `tpv`
equal to the `parseFloat || 0` coercion of some raw field (for `tpv`, after
comma stripping), and such a coercion is non-negative whenever the effective
numeric string does not begin with a minus sign; negative raw values, however,
pass through unclamped. -/
theorem emitted_values_sign (csv : Str) (recs : List MerchantRecord) (d : Nat)
    (h : parseRecords csv = .ok (recs, d)) :
    (∀ r ∈ recs, (∃ o, r.tpt = coerceTptOpt o) ∧ (∃ v, r.tpv = coerceTpv v)) ∧
    (∀ o, ((jsTemplate o).dropWhile isJsWhitespace).head? ≠ some '-' → 0 ≤ coerceTptOpt o) ∧
    (∀ v, ((stripCommas v).dropWhile isJsWhitespace).head? ≠ some '-' → 0 ≤ coerceTpv v) := by
  refine ⟨?_, ?_, ?_⟩
  · unfold parseRecords at h
    exact processRows_fields _ _ _ _ _ _ _ h (by simp)
  · intro o ho
    exact coerceNum_nonneg _ ho
  · intro v hv
    exact coerceNum_nonneg _ hv

theorem emitted_values_sign_witness :
    0 ≤ coerceTptOpt (some "10".toList) ∧ 0 ≤ coerceTpv "1,000".toList :=
  ⟨(emitted_values_sign csvMixed [recMixedA, recMixedB] 1 (by with_unfolding_all decide)).2.1
      (some "10".toList) (by decide),
   (emitted_values_sign csvMixed [recMixedA, recMixedB] 1 (by with_unfolding_all decide)).2.2
      "1,000".toList (by decide)⟩

theorem insertBatchesGo_fuel_irrel (env : Env) :
    ∀ (f₁ f₂ callIdx acc : Nat) (store : List StoredRow) (pending : List MerchantRecord),
      pending.length ≤ f₁ → pending.length ≤ f₂ →
      insertBatchesGo env f₁ callIdx acc store pending =
        insertBatchesGo env f₂ callIdx acc store pending := by
  intro f₁
  induction f₁ with
  | zero =>
    intro f₂ callIdx acc store pending h1 h2
    cases pending with
    | nil => cases f₂ <;> rfl
    | cons r rs => simp at h1
  | succ f ih =>
    intro f₂ callIdx acc store pending h1 h2
    cases pending with
    | nil => cases f₂ <;> rfl
    | cons r rs =>
      cases f₂ with
      | zero => simp at h2
      | succ g =>
        simp only [insertBatchesGo]
        by_cases hf : env.insertFails callIdx
        · simp [hf]
        · simp only [hf, Bool.false_eq_true, if_false]
          have hrest1 : ((r :: rs).drop batchSize).length ≤ f := by
            simp only [List.length_drop, List.length_cons, batchSize]
            simp only [List.length_cons] at h1
            omega
          have hrest2 : ((r :: rs).drop batchSize).length ≤ g := by
            simp only [List.length_drop, List.length_cons, batchSize]
            simp only [List.length_cons] at h2
            omega
          rw [ih g (callIdx + 1) (acc + ((r :: rs).take batchSize).length)
              (store ++ ((r :: rs).take batchSize).enum.map
                (fun p => StoredRow.mk (env.idGen (acc + p.1)) p.2))
              ((r :: rs).drop batchSize) hrest1 hrest2]

theorem insertBatches_cons (env : Env) (callIdx acc : Nat) (store : List StoredRow)
    (r : MerchantRecord) (rs : List MerchantRecord) :
    insertBatches env callIdx acc store (r :: rs) =
      (if env.insertFails callIdx then
        (.error .insertFailed, store, [.insert ((r :: rs).take batchSize).length])
      else
        let out := insertBatches env (callIdx + 1) (acc + ((r :: rs).take batchSize).length)
          (store ++ ((r :: rs).take batchSize).enum.map
            (fun p => StoredRow.mk (env.idGen (acc + p.1)) p.2))
          ((r :: rs).drop batchSize)
        (out.1, out.2.1, .insert ((r :: rs).take batchSize).length :: out.2.2)) := by
  show insertBatchesGo env (r :: rs).length callIdx acc store (r :: rs) = _
  simp only [List.length_cons, insertBatchesGo]
  by_cases hf : env.insertFails callIdx
  · simp [hf]
  · simp only [hf, Bool.false_eq_true, if_false]
    rw [insertBatchesGo_fuel_irrel env rs.length ((r :: rs).drop batchSize).length
        (callIdx + 1) (acc + ((r :: rs).take batchSize).length)
        (store ++ ((r :: rs).take batchSize).enum.map
          (fun p => StoredRow.mk (env.idGen (acc + p.1)) p.2))
        ((r :: rs).drop batchSize) ?_ ?_]
    · rfl
    · simp only [List.length_drop, List.length_cons, batchSize]
      omega
    · exact le_refl _

theorem insertBatches_nil (env : Env) (callIdx acc : Nat) (store : List StoredRow) :
    insertBatches env callIdx acc store [] = (.ok acc, store, []) := rfl

/-- C5 (amended): with 1200 deduplicated records and batch size 500, the
loader issues exactly 3 sequential insert calls of sizes 500, 500 and 200
when all calls succeed; if the second call fails, no further chunk is
attempted (exactly the two calls of size 500 are issued), the operation
reports failure, and exactly the 500 rows of the first completed batch are
persisted — but the count the failure response reports as `imported` is 0,
not 500 (the code rethrows, and the handler's error body hard-codes
`imported: 0`; the running total is only logged). -/
theorem batch_loader_1200 (env : Env) (recs : List MerchantRecord) (store : List StoredRow)
    (hlen : recs.length = 1200) (h0 : env.insertFails 0 = false) :
    ((env.insertFails 1 = false → env.insertFails 2 = false →
       (insertBatches env 0 0 store recs).2.2 = [.insert 500, .insert 500, .insert 200] ∧
       (insertBatches env 0 0 store recs).1 = .ok 1200) ∧
     (env.insertFails 1 = true →
       (insertBatches env 0 0 store recs).2.2 = [.insert 500, .insert 500] ∧
       (insertBatches env 0 0 store recs).1 = .error .insertFailed ∧
       (insertBatches env 0 0 store recs).2.1.length = store.length + 500 ∧
       (respond (.error .insertFailed)).imported = 0)) := by
  cases recs with
  | nil => simp at hlen
  | cons r1 rs1 =>
    simp only [List.length_cons] at hlen
    have h1len : rs1.length = 1199 := by omega
    have ht1 : ((r1 :: rs1).take batchSize).length = 500 := by
      simp [List.length_take, batchSize, h1len]
    rcases hd1 : (r1 :: rs1).drop batchSize with _ | ⟨r2, rs2⟩
    · have hh := congrArg List.length hd1
      simp [batchSize, h1len] at hh
    · have h2len : rs2.length = 699 := by
        have hh := congrArg List.length hd1
        simp [List.length_drop, batchSize, h1len] at hh
        omega
      have ht2 : ((r2 :: rs2).take batchSize).length = 500 := by
        simp [List.length_take, batchSize, h2len]
      rcases hd2 : (r2 :: rs2).drop batchSize with _ | ⟨r3, rs3⟩
      · have hh := congrArg List.length hd2
        simp [batchSize, h2len] at hh
      · have h3len : rs3.length = 199 := by
          have hh := congrArg List.length hd2
          simp [List.length_drop, batchSize, h2len] at hh
          omega
        have ht3 : ((r3 :: rs3).take batchSize).length = 200 := by
          simp [List.length_take, batchSize, h3len]
        have hd3 : (r3 :: rs3).drop batchSize = [] := by
          apply List.eq_nil_of_length_eq_zero
          simp [List.length_drop, batchSize, h3len]
        refine ⟨fun hf1 hf2 => ?_, fun hf1 => ?_⟩
        · simp [insertBatches_cons, insertBatches_nil, ht1, ht2, ht3, hd1, hd2, hd3, h0, hf1,
            hf2, List.length_append, List.length_map, List.enum_length]
        · simp [insertBatches_cons, insertBatches_nil, ht1, ht2, hd1, h0, hf1,
            List.length_append, List.length_map, List.enum_length, respond]

/-- C5 (counterexample): with 1200 records and the second insert call
failing, the operation fails after exactly two insert calls — and the
reported imported count in the failure response is 0, not 500. -/
theorem batch_failure_c5_counterexample :
    (insertBatches envFailSecond 0 0 [] recs1200).1 = .error .insertFailed ∧
    (insertBatches envFailSecond 0 0 [] recs1200).2.2 = [.insert 500, .insert 500] ∧
    (respond (.error .insertFailed)).imported = 0 ∧ (0 : Nat) ≠ 500 :=
  ⟨by decide, by decide, by decide, by decide⟩

theorem batch_loader_1200_witness :
    ((insertBatches envOK 0 0 [] recs1200).2.2 = [.insert 500, .insert 500, .insert 200] ∧
     (insertBatches envOK 0 0 [] recs1200).1 = .ok 1200) ∧
    ((insertBatches envFailSecond 0 0 [] recs1200).2.2 = [.insert 500, .insert 500] ∧
     (insertBatches envFailSecond 0 0 [] recs1200).1 = .error .insertFailed ∧
     (insertBatches envFailSecond 0 0 [] recs1200).2.1.length = ([] : List StoredRow).length + 500 ∧
     (respond (.error .insertFailed)).imported = 0) :=
  ⟨(batch_loader_1200 envOK recs1200 [] (by simp [recs1200]) rfl).1 rfl rfl,
   (batch_loader_1200 envFailSecond recs1200 [] (by simp [recs1200]) rfl).2 rfl⟩
